import Mathlib

/-!
Verification of the real-time collaboration layer of the InfoWellNess
project-management application: a shallow embedding of the Socket.IO
handler module (`setupSocketHandlers`) together with the persisted
`Whiteboard` and `Chat` document models it calls into, and theorems
checking the specified behaviour of the handshake middleware, the event
handlers and the disconnect cleanup path.

Database documents are modelled as immutable Lean structures; a mongoose
`save()` with its pre-save hooks becomes an explicit pure function; a
JavaScript `throw` inside a model method becomes an `Except.error`; an
optional / falsy field of an event payload becomes `Option` or the empty
string.  Server-generated ids and timestamps are passed in explicitly
(`genId`, `now`) since the embedding is deterministic.
-/

namespace InfoWellNess

/-- A user-identity record, as consulted by the Socket.IO authentication
middleware (`User.findById` plus the `isActive` flag). -/
structure User where
  id : Nat
  username : String
  isActive : Bool
deriving Repr, DecidableEq

/-- Outcome of `jwt.verify` on a presented token: either it decodes to a
user id (valid signature, not expired) or it throws. -/
inductive TokenState
  | valid (userId : Nat)
  | invalid
deriving Repr, DecidableEq

/-- Result of the Socket.IO `io.use` authentication middleware: `next()`
with an attached user, or `next(Error)` which refuses the handshake. -/
inductive AuthResult
  | refused (msg : String)
  | accepted (u : User)
deriving Repr, DecidableEq

/-- `User.findById` over the identity store. -/
def findUserById (users : List User) (id : Nat) : Option User :=
  users.find? (fun u => u.id == id)

/-- The authentication middleware installed with `io.use`: no token refuses
the handshake; a token that fails `jwt.verify` refuses it; a decoded id
that resolves to no user, or to a deactivated user, refuses it; otherwise
the user is attached to the socket and the handshake proceeds. -/
def authMiddleware (users : List User) (token : Option TokenState) : AuthResult :=
  match token with
  | none => AuthResult.refused "Authentication error: No token provided"
  | some TokenState.invalid => AuthResult.refused "Authentication error: Invalid token"
  | some (TokenState.valid uid) =>
    match findUserById users uid with
    | none => AuthResult.refused "Authentication error: Invalid user"
    | some u =>
      if u.isActive then AuthResult.accepted u
      else AuthResult.refused "Authentication error: Invalid user"

/-- The identity carried by an established connection, if any: the
`connection` event (and with it every registered `join-*` /
`whiteboard-*` / `chat-*` handler) fires only when the middleware
accepted the handshake, so a connection object exists exactly when this
is `some`. -/
def connectionUser (users : List User) (token : Option TokenState) : Option User :=
  match authMiddleware users token with
  | AuthResult.accepted u => some u
  | AuthResult.refused _ => none

/-! ## Whiteboard document model (`server/models/Whiteboard.js`) -/

/-- A whiteboard element.  The fields other than `id`, `createdBy` and the
timestamps (type, position, size, content, style, …) are abstracted into
the single `etype` / `payload` pair: the update path overwrites them
wholesale via `Object.assign` and no handler logic inspects them. -/
structure Element where
  id : String
  etype : String
  payload : String
  createdBy : Nat
  createdAt : Nat
  updatedAt : Nat
deriving Repr, DecidableEq

/-- The element object arriving in a `whiteboard-element-add` payload;
`id = ""` models a missing / falsy client id (`elementData.id ||`…), and
`createdBy` is stamped by the handler before `addElement` is called. -/
structure ElementInput where
  id : String
  etype : String
  payload : String
  createdBy : Nat
deriving Repr, DecidableEq

/-- A cursor position. -/
structure Cursor where
  x : Int
  y : Int
deriving Repr, DecidableEq

/-- A collaborator presence entry of a whiteboard. -/
structure Collaborator where
  user : Nat
  cursor : Cursor
  lastActive : Nat
deriving Repr, DecidableEq

/-- The persisted whiteboard document: the fields touched by the socket
layer and the model methods. -/
structure Whiteboard where
  elements : List Element
  collaborators : List Collaborator
  version : Nat
deriving Repr, DecidableEq

/-- `save()` together with the pre-save hook: the version counter is
bumped exactly when the `elements` path was modified. -/
def Whiteboard.save (wb : Whiteboard) (elementsModified : Bool) : Whiteboard :=
  if elementsModified then { wb with version := wb.version + 1 } else wb

/-- `addElement`: the stored element takes the client id when one is
present (JS truthiness: the empty string counts as absent) and a freshly
generated id otherwise, stamps both timestamps, appends, and saves. -/
def Whiteboard.addElement (wb : Whiteboard) (e : ElementInput) (now : Nat)
    (genId : String) : Whiteboard :=
  let eid := if e.id = "" then genId else e.id
  let el : Element :=
    { id := eid, etype := e.etype, payload := e.payload,
      createdBy := e.createdBy, createdAt := now, updatedAt := now }
  Whiteboard.save { wb with elements := wb.elements ++ [el] } true

/-- `this.elements.find(e => e.id === elementId)` followed by the in-place
`Object.assign`: only the first element with a matching id is updated. -/
def updateElems : List Element → String → String → Nat → List Element
  | [], _, _, _ => []
  | e :: rest, elementId, updates, now =>
    if e.id = elementId then
      { e with payload := updates, updatedAt := now } :: rest
    else
      e :: updateElems rest elementId updates now

/-- `updateElement`: mutate the first matching element and save, or throw
`Element not found` when no element has the given id. -/
def Whiteboard.updateElement (wb : Whiteboard) (elementId : String)
    (updates : String) (now : Nat) : Except String Whiteboard :=
  if wb.elements.any (fun e => e.id == elementId) then
    Except.ok (Whiteboard.save
      { wb with elements := updateElems wb.elements elementId updates now } true)
  else
    Except.error "Element not found"

/-- `removeElement`: filter out every element with the given id and save;
an unknown id throws nothing — the filter simply removes nothing.  The
assignment `this.elements = this.elements.filter(…)` marks the `elements`
path modified only when the assigned array differs from the stored one
(mongoose deep-equal change tracking), so the pre-save hook bumps the
version exactly when something was actually removed. -/
def Whiteboard.removeElement (wb : Whiteboard) (elementId : String) : Whiteboard :=
  let kept := wb.elements.filter (fun e => e.id != elementId)
  Whiteboard.save { wb with elements := kept } (decide (kept ≠ wb.elements))

/-- First-match update of a collaborator entry's cursor. -/
def updateCollabCursor : List Collaborator → Nat → Cursor → Nat → List Collaborator
  | [], _, _, _ => []
  | c :: rest, userId, cursor, now =>
    if c.user = userId then
      { c with cursor := cursor, lastActive := now } :: rest
    else
      c :: updateCollabCursor rest userId cursor now

/-- `updateCollaboratorCursor`: upsert the caller's presence entry (update
the existing entry, or push a new one) and save. -/
def Whiteboard.updateCollaboratorCursor (wb : Whiteboard) (userId : Nat)
    (cursor : Cursor) (now : Nat) : Whiteboard :=
  if wb.collaborators.any (fun c => c.user == userId) then
    Whiteboard.save
      { wb with collaborators := updateCollabCursor wb.collaborators userId cursor now } false
  else
    Whiteboard.save
      { wb with collaborators :=
          wb.collaborators ++ [{ user := userId, cursor := cursor, lastActive := now }] } false

/-- `removeCollaborator`: filter the caller's presence entry out and save. -/
def Whiteboard.removeCollaborator (wb : Whiteboard) (userId : Nat) : Whiteboard :=
  Whiteboard.save
    { wb with collaborators := wb.collaborators.filter (fun c => c.user != userId) } false

/-- The ids of a whiteboard's persisted elements, in order. -/
def wbIds (wb : Whiteboard) : List String :=
  wb.elements.map (fun e => e.id)

/-! ## Chat document model (`server/models/Chat.js`) -/

/-- A `readBy` entry of a chat message. -/
structure ReadEntry where
  user : Nat
  readAt : Nat
deriving Repr, DecidableEq

/-- A persisted chat message.  Mentions and reactions are not touched by
the socket layer and are omitted; attachments are kept abstract. -/
structure Message where
  id : String
  sender : Nat
  content : String
  mtype : String
  attachments : List String
  readBy : List ReadEntry
  isEdited : Bool
  editedAt : Option Nat
  isDeleted : Bool
  deletedAt : Option Nat
  createdAt : Nat
deriving Repr, DecidableEq

/-- Default message, standing in for the `undefined` a JavaScript
out-of-range array read would produce. -/
def Message.default : Message :=
  { id := "", sender := 0, content := "", mtype := "text", attachments := [],
    readBy := [], isEdited := false, editedAt := none, isDeleted := false,
    deletedAt := none, createdAt := 0 }

/-- A chat participant entry. -/
structure Participant where
  user : Nat
  lastRead : Nat
  isTyping : Bool
deriving Repr, DecidableEq

/-- The persisted chat document: the fields touched by the socket layer
and the model methods. -/
structure Chat where
  participants : List Participant
  messages : List Message
  lastActivity : Nat
deriving Repr, DecidableEq

/-- `save()` together with the pre-save hook: `lastActivity` is advanced
exactly when the `messages` path was modified. -/
def Chat.save (c : Chat) (messagesModified : Bool) (now : Nat) : Chat :=
  if messagesModified then { c with lastActivity := now } else c

/-- The message object built by the `chat-message` handler; `id = ""`
models a missing id (`messageData.id ||`…). -/
structure MessageInput where
  id : String
  content : String
  mtype : String
  attachments : List String
  sender : Nat
deriving Repr, DecidableEq

/-- `addMessage`: assign a server-generated id when the input carries
none, stamp `createdAt`, append, and save.  The `readBy` list of the new
message is the schema default — empty. -/
def Chat.addMessage (c : Chat) (m : MessageInput) (now : Nat) (genId : String) : Chat :=
  let mid := if m.id = "" then genId else m.id
  let msg : Message :=
    { id := mid, sender := m.sender, content := m.content, mtype := m.mtype,
      attachments := m.attachments, readBy := [], isEdited := false,
      editedAt := none, isDeleted := false, deletedAt := none, createdAt := now }
  Chat.save { c with messages := c.messages ++ [msg] } true now

/-- First-match update of a message's content, as `updateMessage` performs
it: `Object.assign(message, updates, \x7b isEdited, editedAt \x7d)`.  The
`isDeleted` flag is not consulted. -/
def updateMsgs : List Message → String → String → Nat → List Message
  | [], _, _, _ => []
  | m :: rest, messageId, content, now =>
    if m.id = messageId then
      { m with content := content, isEdited := true, editedAt := some now } :: rest
    else
      m :: updateMsgs rest messageId content now

/-- `updateMessage`: edit the first message with the given id and save, or
throw `Message not found`.  There is no check of `isDeleted`. -/
def Chat.updateMessage (c : Chat) (messageId : String) (content : String)
    (now : Nat) : Except String Chat :=
  if c.messages.any (fun m => m.id == messageId) then
    Except.ok (Chat.save
      { c with messages := updateMsgs c.messages messageId content now } true now)
  else
    Except.error "Message not found"

/-- First-match soft delete of a message. -/
def deleteMsgs : List Message → String → Nat → List Message
  | [], _, _ => []
  | m :: rest, messageId, now =>
    if m.id = messageId then
      { m with isDeleted := true, deletedAt := some now } :: rest
    else
      m :: deleteMsgs rest messageId now

/-- `deleteMessage`: soft-delete the first message with the given id and
save, or throw `Message not found`. -/
def Chat.deleteMessage (c : Chat) (messageId : String) (now : Nat) :
    Except String Chat :=
  if c.messages.any (fun m => m.id == messageId) then
    Except.ok (Chat.save { c with messages := deleteMsgs c.messages messageId now } true now)
  else
    Except.error "Message not found"

/-- First-match update of a participant's typing flag. -/
def setTyping : List Participant → Nat → Bool → List Participant
  | [], _, _ => []
  | p :: rest, userId, isTyping =>
    if p.user = userId then
      { p with isTyping := isTyping } :: rest
    else
      p :: setTyping rest userId isTyping

/-- `updateTypingStatus`: set the caller's typing flag and save, or throw
`User not found in chat` when the caller is not a participant. -/
def Chat.updateTypingStatus (c : Chat) (userId : Nat) (isTyping : Bool)
    (now : Nat) : Except String Chat :=
  if c.participants.any (fun p => p.user == userId) then
    Except.ok (Chat.save
      { c with participants := setTyping c.participants userId isTyping } false now)
  else
    Except.error "User not found in chat"

/-- First-match append of a `readBy` entry for the caller, skipped when an
entry for the caller already exists. -/
def markMsgRead : List Message → String → Nat → Nat → List Message
  | [], _, _, _ => []
  | m :: rest, messageId, userId, now =>
    if m.id = messageId then
      (if m.readBy.any (fun r => r.user == userId) then m
       else { m with readBy := m.readBy ++ [{ user := userId, readAt := now }] }) :: rest
    else
      m :: markMsgRead rest messageId userId now

/-- First-match advance of a participant's `lastRead` timestamp. -/
def setLastRead : List Participant → Nat → Nat → List Participant
  | [], _, _ => []
  | p :: rest, userId, now =>
    if p.user = userId then
      { p with lastRead := now } :: rest
    else
      p :: setLastRead rest userId now

/-- `markAsRead`: when the caller is a participant, optionally append a
`readBy` entry to the named message and advance the caller's `lastRead`;
otherwise throw `User not found in chat`.  The pre-save hook sees the
`messages` path as modified exactly when a `readBy` entry was pushed. -/
def Chat.markAsRead (c : Chat) (userId : Nat) (messageId : Option String)
    (now : Nat) : Except String Chat :=
  if c.participants.any (fun p => p.user == userId) then
    let msgs := match messageId with
      | some mid => markMsgRead c.messages mid userId now
      | none => c.messages
    Except.ok (Chat.save
      { c with messages := msgs, participants := setLastRead c.participants userId now }
      (decide (msgs ≠ c.messages)) now)
  else
    Except.error "User not found in chat"

/-! ## Socket event layer (`setupSocketHandlers`)

Each handler is embedded as a pure function from its payload and the
relevant stored document (the `findById` result, `none` when the id does
not resolve) to the list of emitted events and the updated stored
document / connection state.  `socket.emit` is audience `toSender`,
`socket.to(room).emit` is `roomExceptSender`, and `io.to(room).emit` is
`roomAll`. -/

/-- The audience of an emitted event. -/
inductive Audience
  | toSender
  | roomExceptSender (room : String)
  | roomAll (room : String)
deriving Repr, DecidableEq

/-- The payload of an emitted event, restricted to the parts the
verification inspects. -/
inductive Payload
  | empty
  | err (msg : String)
  | userInfo (userId : Nat)
  | boardState (wb : Whiteboard)
  | chatHistory (c : Chat) (visible : List Message)
  | elementAdded (e : ElementInput)
  | elementUpdated (elementId : String) (updates : String)
  | elementRemoved (elementId : String)
  | message (m : Message)
  | typing (userId : Nat) (isTyping : Bool)
  | cursorAt (userId : Nat) (c : Cursor)
  | readReceipt (messageId : Option String) (userId : Nat)
  | presence (userId : Nat) (status : String)
deriving Repr, DecidableEq

/-- One emitted event. -/
structure Emit where
  event : String
  aud : Audience
  payload : Payload
deriving Repr, DecidableEq

/-- The `error` emit every catch / validation branch sends to the caller. -/
def errEmit (msg : String) : Emit :=
  { event := "error", aud := Audience.toSender, payload := Payload.err msg }

/-- Result of `join-project`. -/
structure JoinProjectResult where
  emits : List Emit
  joinedRooms : List String
  projectId : Option String
deriving Repr, DecidableEq

/-- The `join-project` handler: a missing `projectId` is an `error` to the
sender; otherwise the socket joins the project room (and its
`user_projects` room), records the project id, and the join is announced
to the room excluding the sender. -/
def joinProjectHandler (u : User) (projectId : String) : JoinProjectResult :=
  if projectId = "" then
    { emits := [errEmit "Project ID is required"], joinedRooms := [], projectId := none }
  else
    { emits := [{ event := "user-joined-project",
                  aud := Audience.roomExceptSender ("project_" ++ projectId),
                  payload := Payload.userInfo u.id }],
      joinedRooms := ["project_" ++ projectId, "user_projects_" ++ toString u.id],
      projectId := some projectId }

/-- Result of `leave-project`. -/
structure LeaveProjectResult where
  emits : List Emit
  leftRooms : List String
  projectId : Option String
deriving Repr, DecidableEq

/-- The `leave-project` handler: only acts when the payload id is truthy
and matches the socket's recorded project id. -/
def leaveProjectHandler (u : User) (socketProjectId : Option String)
    (projectId : String) : LeaveProjectResult :=
  if projectId ≠ "" ∧ socketProjectId = some projectId then
    { emits := [{ event := "user-left-project",
                  aud := Audience.roomExceptSender ("project_" ++ projectId),
                  payload := Payload.userInfo u.id }],
      leftRooms := ["project_" ++ projectId], projectId := none }
  else
    { emits := [], leftRooms := [], projectId := socketProjectId }

/-- Result of `join-whiteboard`: emitted events, rooms joined, the value
recorded as the socket's active whiteboard id (`none` when the handler
returned before assigning it), and the stored document afterwards. -/
structure JoinWhiteboardResult where
  emits : List Emit
  joinedRooms : List String
  activeWhiteboard : Option String
  stored : Option Whiteboard
deriving Repr, DecidableEq

/-- The `join-whiteboard` handler: a missing id is an `error` to the
sender.  Otherwise the socket joins the whiteboard room and records the
id first; only if the id then resolves to a stored document is the
caller's presence upserted, the full state sent back to the sender, and
the join announced to the room excluding the sender. -/
def joinWhiteboardHandler (u : User) (now : Nat) (whiteboardId : String)
    (stored : Option Whiteboard) : JoinWhiteboardResult :=
  if whiteboardId = "" then
    { emits := [errEmit "Whiteboard ID is required"], joinedRooms := [],
      activeWhiteboard := none, stored := stored }
  else
    match stored with
    | some wb =>
      let wb' := wb.updateCollaboratorCursor u.id { x := 0, y := 0 } now
      { emits := [{ event := "whiteboard-state", aud := Audience.toSender,
                    payload := Payload.boardState wb' },
                  { event := "user-joined-whiteboard",
                    aud := Audience.roomExceptSender ("whiteboard_" ++ whiteboardId),
                    payload := Payload.userInfo u.id }],
        joinedRooms := ["whiteboard_" ++ whiteboardId],
        activeWhiteboard := some whiteboardId, stored := some wb' }
    | none =>
      { emits := [], joinedRooms := ["whiteboard_" ++ whiteboardId],
        activeWhiteboard := some whiteboardId, stored := none }

/-- Result of a whiteboard mutation handler: emitted events and the stored
document afterwards. -/
structure WhiteboardHandlerResult where
  emits : List Emit
  stored : Option Whiteboard
deriving Repr, DecidableEq

/-- The `whiteboard-element-add` handler: validation failure is an `error`
to the sender; with a resolved document the element is stamped with the
caller and appended via `addElement`, and the (input) element is broadcast
to the room excluding the sender; an unresolved id does nothing. -/
def elementAddHandler (u : User) (now : Nat) (genId : String)
    (whiteboardId : String) (element : Option ElementInput)
    (stored : Option Whiteboard) : WhiteboardHandlerResult :=
  match element with
  | none => { emits := [errEmit "Invalid data for adding element"], stored := stored }
  | some e =>
    if whiteboardId = "" then
      { emits := [errEmit "Invalid data for adding element"], stored := stored }
    else
      match stored with
      | some wb =>
        let e' := { e with createdBy := u.id }
        { emits := [{ event := "whiteboard-element-added",
                      aud := Audience.roomExceptSender ("whiteboard_" ++ whiteboardId),
                      payload := Payload.elementAdded e' }],
          stored := some (wb.addElement e' now genId) }
      | none => { emits := [], stored := none }

/-- The `whiteboard-element-update` handler: validation failure is an
`error` to the sender; with a resolved document, a throwing
`updateElement` (unknown element id) is caught and reported as an `error`
to the sender with the document unchanged, and a successful update is
broadcast to the room excluding the sender. -/
def elementUpdateHandler (u : User) (now : Nat) (whiteboardId elementId : String)
    (updates : Option String) (stored : Option Whiteboard) : WhiteboardHandlerResult :=
  match updates with
  | none => { emits := [errEmit "Invalid data for updating element"], stored := stored }
  | some up =>
    if whiteboardId = "" ∨ elementId = "" then
      { emits := [errEmit "Invalid data for updating element"], stored := stored }
    else
      match stored with
      | some wb =>
        match wb.updateElement elementId up now with
        | Except.ok wb' =>
          { emits := [{ event := "whiteboard-element-updated",
                        aud := Audience.roomExceptSender ("whiteboard_" ++ whiteboardId),
                        payload := Payload.elementUpdated elementId up }],
            stored := some wb' }
        | Except.error _ =>
          { emits := [errEmit "Failed to update element"], stored := some wb }
      | none => { emits := [], stored := none }

/-- The `whiteboard-element-remove` handler: validation failure is an
`error` to the sender; with a resolved document, `removeElement` never
throws, so the removal broadcast goes to the room excluding the sender
whether or not the id matched anything. -/
def elementRemoveHandler (u : User) (whiteboardId elementId : String)
    (stored : Option Whiteboard) : WhiteboardHandlerResult :=
  if whiteboardId = "" ∨ elementId = "" then
    { emits := [errEmit "Invalid data for removing element"], stored := stored }
  else
    match stored with
    | some wb =>
      { emits := [{ event := "whiteboard-element-removed",
                    aud := Audience.roomExceptSender ("whiteboard_" ++ whiteboardId),
                    payload := Payload.elementRemoved elementId }],
        stored := some (wb.removeElement elementId) }
    | none => { emits := [], stored := none }

/-- The `whiteboard-cursor-update` handler: a missing id or cursor makes
the handler return silently — no `error` emit; with a resolved document
the presence entry is upserted and the cursor broadcast to the room
excluding the sender. -/
def cursorUpdateHandler (u : User) (now : Nat) (whiteboardId : String)
    (cursor : Option Cursor) (stored : Option Whiteboard) : WhiteboardHandlerResult :=
  match cursor with
  | none => { emits := [], stored := stored }
  | some cur =>
    if whiteboardId = "" then
      { emits := [], stored := stored }
    else
      match stored with
      | some wb =>
        { emits := [{ event := "whiteboard-cursor-updated",
                      aud := Audience.roomExceptSender ("whiteboard_" ++ whiteboardId),
                      payload := Payload.cursorAt u.id cur }],
          stored := some (wb.updateCollaboratorCursor u.id cur now) }
      | none => { emits := [], stored := none }

/-- Result of `join-chat`. -/
structure JoinChatResult where
  emits : List Emit
  joinedRooms : List String
  activeChat : Option String
  stored : Option Chat
deriving Repr, DecidableEq

/-- The `join-chat` handler: a missing id is an `error` to the sender;
otherwise the socket joins the chat room and records the id first, and if
the id resolves, the history (soft-deleted messages filtered out) goes to
the sender and the join is announced to the room excluding the sender. -/
def joinChatHandler (u : User) (chatId : String) (stored : Option Chat) :
    JoinChatResult :=
  if chatId = "" then
    { emits := [errEmit "Chat ID is required"], joinedRooms := [],
      activeChat := none, stored := stored }
  else
    match stored with
    | some c =>
      { emits := [{ event := "chat-history", aud := Audience.toSender,
                    payload := Payload.chatHistory c (c.messages.filter (fun m => !m.isDeleted)) },
                  { event := "user-joined-chat",
                    aud := Audience.roomExceptSender ("chat_" ++ chatId),
                    payload := Payload.userInfo u.id }],
        joinedRooms := ["chat_" ++ chatId], activeChat := some chatId, stored := some c }
    | none =>
      { emits := [], joinedRooms := ["chat_" ++ chatId],
        activeChat := some chatId, stored := none }

/-- Result of a chat mutation handler. -/
structure ChatHandlerResult where
  emits : List Emit
  stored : Option Chat
deriving Repr, DecidableEq

/-- The `chat-message` handler: a missing chat id or content is an `error`
to the sender; with a resolved document the message is appended via
`addMessage` and the last stored message — carrying the server-assigned id
and timestamp — is broadcast with `io.to`, i.e. to the whole room
including the sender. -/
def chatMessageHandler (u : User) (now : Nat) (genId : String)
    (chatId content mtype : String) (attachments : List String)
    (stored : Option Chat) : ChatHandlerResult :=
  if chatId = "" ∨ content = "" then
    { emits := [errEmit "Invalid message data"], stored := stored }
  else
    match stored with
    | some c =>
      let c' := c.addMessage
        { id := "", content := content, mtype := mtype,
          attachments := attachments, sender := u.id } now genId
      { emits := [{ event := "chat-message-received",
                    aud := Audience.roomAll ("chat_" ++ chatId),
                    payload := Payload.message (c'.messages.getLastD Message.default) }],
        stored := some c' }
    | none => { emits := [], stored := none }

/-- The `chat-typing-start` handler: a missing chat id returns silently;
with a resolved document a throwing `updateTypingStatus` (caller not a
participant) is caught and only logged — no emit at all — and a
successful update broadcasts the typing flag to the room excluding the
sender. -/
def typingStartHandler (u : User) (now : Nat) (chatId : String)
    (stored : Option Chat) : ChatHandlerResult :=
  if chatId = "" then
    { emits := [], stored := stored }
  else
    match stored with
    | some c =>
      match c.updateTypingStatus u.id true now with
      | Except.ok c' =>
        { emits := [{ event := "user-typing",
                      aud := Audience.roomExceptSender ("chat_" ++ chatId),
                      payload := Payload.typing u.id true }],
          stored := some c' }
      | Except.error _ => { emits := [], stored := some c }
    | none => { emits := [], stored := none }

/-- The `chat-typing-stop` handler, identical to `chat-typing-start` with
the flag cleared. -/
def typingStopHandler (u : User) (now : Nat) (chatId : String)
    (stored : Option Chat) : ChatHandlerResult :=
  if chatId = "" then
    { emits := [], stored := stored }
  else
    match stored with
    | some c =>
      match c.updateTypingStatus u.id false now with
      | Except.ok c' =>
        { emits := [{ event := "user-typing",
                      aud := Audience.roomExceptSender ("chat_" ++ chatId),
                      payload := Payload.typing u.id false }],
          stored := some c' }
      | Except.error _ => { emits := [], stored := some c }
    | none => { emits := [], stored := none }

/-- The `chat-message-read` handler: a missing chat id returns silently;
with a resolved document a throwing `markAsRead` is caught and only
logged, and a successful one broadcasts the read receipt to the room
excluding the sender. -/
def messageReadHandler (u : User) (now : Nat) (chatId : String)
    (messageId : Option String) (stored : Option Chat) : ChatHandlerResult :=
  if chatId = "" then
    { emits := [], stored := stored }
  else
    match stored with
    | some c =>
      match c.markAsRead u.id messageId now with
      | Except.ok c' =>
        { emits := [{ event := "message-read",
                      aud := Audience.roomExceptSender ("chat_" ++ chatId),
                      payload := Payload.readReceipt messageId u.id }],
          stored := some c' }
      | Except.error _ => { emits := [], stored := some c }
    | none => { emits := [], stored := none }

/-- The `user-presence-update` handler: broadcasts to the project room
excluding the sender when a project id is supplied. -/
def presenceUpdateHandler (u : User) (status : String) (projectId : String) :
    List Emit :=
  if projectId = "" then []
  else
    [{ event := "user-presence-changed",
       aud := Audience.roomExceptSender ("project_" ++ projectId),
       payload := Payload.presence u.id status }]

/-- The `user-left-project` emit of the disconnect path, when a project
room is held. -/
def projLeftEmit (u : User) (projectId : Option String) : List Emit :=
  match projectId with
  | some pid =>
    [{ event := "user-left-project",
       aud := Audience.roomExceptSender ("project_" ++ pid),
       payload := Payload.userInfo u.id }]
  | none => []

/-- Result of the disconnect handler. -/
structure DisconnectResult where
  emits : List Emit
  storedWb : Option Whiteboard
  storedChat : Option Chat
deriving Repr, DecidableEq

/-- The `disconnect` handler.  All three cleanups — whiteboard presence,
chat typing flag, project-room notification — run sequentially inside a
single try/catch: an error thrown by one of them (here, the chat typing
update when the user is not a participant) is swallowed, and the
cleanups after it are skipped; cleanups completed before the throw keep
their effects. -/
def disconnectHandler (u : User) (now : Nat)
    (whiteboardId chatId projectId : Option String)
    (storedWb : Option Whiteboard) (storedChat : Option Chat) : DisconnectResult :=
  let step1 : List Emit × Option Whiteboard :=
    match whiteboardId with
    | none => ([], storedWb)
    | some wid =>
      match storedWb with
      | none => ([], storedWb)
      | some wb =>
        ([{ event := "user-left-whiteboard",
            aud := Audience.roomExceptSender ("whiteboard_" ++ wid),
            payload := Payload.userInfo u.id }],
         some (wb.removeCollaborator u.id))
  match chatId with
  | some cid =>
    match storedChat with
    | some c =>
      match c.updateTypingStatus u.id false now with
      | Except.ok c' =>
        { emits := step1.1 ++
            [{ event := "user-typing",
               aud := Audience.roomExceptSender ("chat_" ++ cid),
               payload := Payload.typing u.id false }] ++ projLeftEmit u projectId,
          storedWb := step1.2, storedChat := some c' }
      | Except.error _ =>
        { emits := step1.1, storedWb := step1.2, storedChat := some c }
    | none =>
      { emits := step1.1 ++ projLeftEmit u projectId,
        storedWb := step1.2, storedChat := none }
  | none =>
    { emits := step1.1 ++ projLeftEmit u projectId,
      storedWb := step1.2, storedChat := storedChat }

/-- Whether an emit list contains an `io.to`-style whole-room broadcast
(one the sender itself receives). -/
def hasRoomAll (es : List Emit) : Bool :=
  es.any (fun e =>
    match e.aud with
    | Audience.roomAll _ => true
    | _ => false)

/-- Whether an emit list contains an `error` event. -/
def hasErrorEmit (es : List Emit) : Bool :=
  es.any (fun e => e.event == "error")

/-! ## Specification predicates and concrete fixtures -/

/-- The asymmetric-broadcast property of `chat-message`: the handler
persists exactly one new message carrying the server-assigned id and
timestamp, broadcasts it as `chat-message-received` to the whole room
including the sender, and every other handler's room broadcasts exclude
the sender. -/
def ChatMessageBroadcast (u : User) (now : Nat) (genId chatId content mtype : String)
    (atts : List String) (c : Chat) : Prop :=
  (∃ msg : Message,
    msg.id = genId ∧ msg.createdAt = now ∧ msg.sender = u.id ∧ msg.content = content ∧
    (chatMessageHandler u now genId chatId content mtype atts (some c)).stored =
      some (Chat.save { c with messages := c.messages ++ [msg] } true now) ∧
    (chatMessageHandler u now genId chatId content mtype atts (some c)).emits =
      [{ event := "chat-message-received",
         aud := Audience.roomAll ("chat_" ++ chatId),
         payload := Payload.message msg }])
  ∧ (∀ (v : User) (pid : String), hasRoomAll (joinProjectHandler v pid).emits = false)
  ∧ (∀ (v : User) (spid : Option String) (pid : String),
      hasRoomAll (leaveProjectHandler v spid pid).emits = false)
  ∧ (∀ (v : User) (n : Nat) (wid : String) (swb : Option Whiteboard),
      hasRoomAll (joinWhiteboardHandler v n wid swb).emits = false)
  ∧ (∀ (v : User) (n : Nat) (gid wid : String) (el : Option ElementInput)
      (swb : Option Whiteboard),
      hasRoomAll (elementAddHandler v n gid wid el swb).emits = false)
  ∧ (∀ (v : User) (n : Nat) (wid eid : String) (up : Option String)
      (swb : Option Whiteboard),
      hasRoomAll (elementUpdateHandler v n wid eid up swb).emits = false)
  ∧ (∀ (v : User) (wid eid : String) (swb : Option Whiteboard),
      hasRoomAll (elementRemoveHandler v wid eid swb).emits = false)
  ∧ (∀ (v : User) (n : Nat) (wid : String) (cur : Option Cursor)
      (swb : Option Whiteboard),
      hasRoomAll (cursorUpdateHandler v n wid cur swb).emits = false)
  ∧ (∀ (v : User) (cid : String) (sc : Option Chat),
      hasRoomAll (joinChatHandler v cid sc).emits = false)
  ∧ (∀ (v : User) (n : Nat) (cid : String) (sc : Option Chat),
      hasRoomAll (typingStartHandler v n cid sc).emits = false)
  ∧ (∀ (v : User) (n : Nat) (cid : String) (sc : Option Chat),
      hasRoomAll (typingStopHandler v n cid sc).emits = false)
  ∧ (∀ (v : User) (n : Nat) (cid : String) (mid : Option String) (sc : Option Chat),
      hasRoomAll (messageReadHandler v n cid mid sc).emits = false)
  ∧ (∀ (v : User) (st pid : String),
      hasRoomAll (presenceUpdateHandler v st pid) = false)
  ∧ (∀ (v : User) (n : Nat) (wid cid pid : Option String)
      (swb : Option Whiteboard) (sc : Option Chat),
      hasRoomAll (disconnectHandler v n wid cid pid swb sc).emits = false)

/-- A verified, active user. -/
def user0 : User :=
  { id := 1, username := "alice", isActive := true }

/-- A stored element with id `a`. -/
def elem0 : Element :=
  { id := "a", etype := "rectangle", payload := "", createdBy := 1,
    createdAt := 0, updatedAt := 0 }

/-- A whiteboard holding the single element `a`. -/
def wb0 : Whiteboard :=
  { elements := [elem0], collaborators := [], version := 1 }

/-- A whiteboard with no elements and `user0` as collaborator. -/
def wbCollab : Whiteboard :=
  { elements := [],
    collaborators := [{ user := 1, cursor := { x := 0, y := 0 }, lastActive := 0 }],
    version := 1 }

/-- `user0` as a chat participant. -/
def part0 : Participant :=
  { user := 1, lastRead := 0, isTyping := false }

/-- An empty chat in which `user0` participates. -/
def chat0 : Chat :=
  { participants := [part0], messages := [], lastActivity := 0 }

/-- A soft-deleted message. -/
def msgDel : Message :=
  { id := "m1", sender := 2, content := "hi", mtype := "text", attachments := [],
    readBy := [], isEdited := false, editedAt := none, isDeleted := true,
    deletedAt := some 4, createdAt := 1 }

/-- A chat holding only the soft-deleted message `m1`. -/
def chatDel : Chat :=
  { participants := [part0], messages := [msgDel], lastActivity := 0 }

/-- A chat in which `user0` is not a participant. -/
def chatNoPart : Chat :=
  { participants := [], messages := [], lastActivity := 0 }

/-- A client-supplied element input carrying the explicit id `a`. -/
def elemIn : ElementInput :=
  { id := "a", etype := "rectangle", payload := "p", createdBy := 0 }

/-- A whiteboard with no elements. -/
def wbEmpty : Whiteboard :=
  { elements := [], collaborators := [], version := 1 }

end InfoWellNess

namespace InfoWellNess

/-- C1: a connection (and hence any reachable event handler) exists exactly
when the presented credential verifies, resolves to a known user, and that
user is active; a missing token, an invalid or expired token, an unknown
id or a deactivated user all refuse the handshake before any connection
object is created, and every established connection carries that verified
active identity. -/
theorem handshake_requires_active_identity (users : List User)
    (token : Option TokenState) (u : User) :
    connectionUser users token = some u ↔
      ∃ uid, token = some (TokenState.valid uid) ∧
        findUserById users uid = some u ∧ u.isActive = true := by
  unfold connectionUser authMiddleware
  cases token with
  | none => simp
  | some t =>
    cases t with
    | invalid => simp
    | valid uid =>
      cases h : findUserById users uid with
      | none => simp [h]
      | some v =>
        cases hv : v.isActive with
        | false =>
          simp [h, hv]
          rintro rfl
          exact hv
        | true =>
          simp [h, hv]
          rintro rfl
          exact hv

theorem hasRoomAll_append (a b : List Emit) :
    hasRoomAll (a ++ b) = (hasRoomAll a || hasRoomAll b) := by
  simp [hasRoomAll]

theorem joinProject_no_roomAll (v : User) (pid : String) :
    hasRoomAll (joinProjectHandler v pid).emits = false := by
  unfold joinProjectHandler
  repeat' split
  all_goals simp [hasRoomAll, errEmit]

theorem leaveProject_no_roomAll (v : User) (spid : Option String) (pid : String) :
    hasRoomAll (leaveProjectHandler v spid pid).emits = false := by
  unfold leaveProjectHandler
  repeat' split
  all_goals simp [hasRoomAll, errEmit]

theorem joinWhiteboard_no_roomAll (v : User) (n : Nat) (wid : String)
    (swb : Option Whiteboard) :
    hasRoomAll (joinWhiteboardHandler v n wid swb).emits = false := by
  unfold joinWhiteboardHandler
  repeat' split
  all_goals simp [hasRoomAll, errEmit]

theorem elementAdd_no_roomAll (v : User) (n : Nat) (gid wid : String)
    (el : Option ElementInput) (swb : Option Whiteboard) :
    hasRoomAll (elementAddHandler v n gid wid el swb).emits = false := by
  unfold elementAddHandler
  repeat' split
  all_goals simp [hasRoomAll, errEmit]

theorem elementUpdate_no_roomAll (v : User) (n : Nat) (wid eid : String)
    (up : Option String) (swb : Option Whiteboard) :
    hasRoomAll (elementUpdateHandler v n wid eid up swb).emits = false := by
  unfold elementUpdateHandler
  repeat' split
  all_goals simp [hasRoomAll, errEmit]

theorem elementRemove_no_roomAll (v : User) (wid eid : String)
    (swb : Option Whiteboard) :
    hasRoomAll (elementRemoveHandler v wid eid swb).emits = false := by
  unfold elementRemoveHandler
  repeat' split
  all_goals simp [hasRoomAll, errEmit]

theorem cursorUpdate_no_roomAll (v : User) (n : Nat) (wid : String)
    (cur : Option Cursor) (swb : Option Whiteboard) :
    hasRoomAll (cursorUpdateHandler v n wid cur swb).emits = false := by
  unfold cursorUpdateHandler
  repeat' split
  all_goals simp [hasRoomAll, errEmit]

theorem joinChat_no_roomAll (v : User) (cid : String) (sc : Option Chat) :
    hasRoomAll (joinChatHandler v cid sc).emits = false := by
  unfold joinChatHandler
  repeat' split
  all_goals simp [hasRoomAll, errEmit]

theorem typingStart_no_roomAll (v : User) (n : Nat) (cid : String)
    (sc : Option Chat) :
    hasRoomAll (typingStartHandler v n cid sc).emits = false := by
  unfold typingStartHandler
  repeat' split
  all_goals simp [hasRoomAll, errEmit]

theorem typingStop_no_roomAll (v : User) (n : Nat) (cid : String)
    (sc : Option Chat) :
    hasRoomAll (typingStopHandler v n cid sc).emits = false := by
  unfold typingStopHandler
  repeat' split
  all_goals simp [hasRoomAll, errEmit]

theorem messageRead_no_roomAll (v : User) (n : Nat) (cid : String)
    (mid : Option String) (sc : Option Chat) :
    hasRoomAll (messageReadHandler v n cid mid sc).emits = false := by
  unfold messageReadHandler
  repeat' split
  all_goals simp [hasRoomAll, errEmit]

theorem presenceUpdate_no_roomAll (v : User) (st pid : String) :
    hasRoomAll (presenceUpdateHandler v st pid) = false := by
  unfold presenceUpdateHandler
  repeat' split
  all_goals simp [hasRoomAll, errEmit]

theorem projLeftEmit_no_roomAll (v : User) (p : Option String) :
    hasRoomAll (projLeftEmit v p) = false := by
  cases p <;> simp [projLeftEmit, hasRoomAll]

theorem disconnect_no_roomAll (v : User) (n : Nat) (wid cid pid : Option String)
    (swb : Option Whiteboard) (sc : Option Chat) :
    hasRoomAll (disconnectHandler v n wid cid pid swb sc).emits = false := by
  unfold disconnectHandler
  repeat' split
  all_goals simp [hasRoomAll_append, projLeftEmit_no_roomAll, hasRoomAll, errEmit]
  all_goals (cases pid <;> simp [projLeftEmit])

/-- C2: a `chat-message` with a resolved chat, a non-empty chat id and
non-empty content persists the message with the server-assigned id and
timestamp and broadcasts it as `chat-message-received` to the entire room
including the sender, while every other event type's room broadcasts
exclude the sender. -/
theorem chat_message_asymmetric_broadcast
    (u : User) (now : Nat) (genId chatId content mtype : String)
    (atts : List String) (c : Chat)
    (hc : chatId ≠ "") (hcont : content ≠ "") :
    ChatMessageBroadcast u now genId chatId content mtype atts c := by
  unfold ChatMessageBroadcast
  refine ⟨?_, joinProject_no_roomAll, leaveProject_no_roomAll,
    joinWhiteboard_no_roomAll, elementAdd_no_roomAll, elementUpdate_no_roomAll,
    elementRemove_no_roomAll, cursorUpdate_no_roomAll, joinChat_no_roomAll,
    typingStart_no_roomAll, typingStop_no_roomAll, messageRead_no_roomAll,
    presenceUpdate_no_roomAll, disconnect_no_roomAll⟩
  refine ⟨{ id := genId, sender := u.id, content := content, mtype := mtype,
            attachments := atts, readBy := [], isEdited := false, editedAt := none,
            isDeleted := false, deletedAt := none, createdAt := now },
          rfl, rfl, rfl, rfl, ?_, ?_⟩
  · unfold chatMessageHandler
    rw [if_neg (by tauto)]
    simp [Chat.addMessage]
  · unfold chatMessageHandler
    rw [if_neg (by tauto)]
    simp [Chat.addMessage, Chat.save]

theorem chat_message_asymmetric_broadcast_witness :
    ("c1" : String) ≠ "" ∧ ("hi" : String) ≠ "" ∧
      ChatMessageBroadcast user0 3 "m9" "c1" "hi" "text" [] chat0 :=
  ⟨by decide, by decide,
   chat_message_asymmetric_broadcast user0 3 "m9" "c1" "hi" "text" [] chat0
     (by decide) (by decide)⟩

/-- C3: a `whiteboard-element-update` with valid fields on a resolved
whiteboard whose elements contain no match for `elementId` emits exactly
one `error` event to the sender — no room broadcast — and leaves the
persisted whiteboard document unchanged (the thrown `Element not found`
is caught before any save). -/
theorem element_update_unknown_id_error_only
    (u : User) (now : Nat) (whiteboardId elementId up : String) (wb : Whiteboard)
    (hw : whiteboardId ≠ "") (he : elementId ≠ "")
    (hnot : wb.elements.any (fun e => e.id == elementId) = false) :
    elementUpdateHandler u now whiteboardId elementId (some up) (some wb) =
      { emits := [errEmit "Failed to update element"], stored := some wb } := by
  simp [elementUpdateHandler, Whiteboard.updateElement, hnot, hw, he]

theorem element_update_unknown_id_error_only_witness :
    ("w1" : String) ≠ "" ∧ ("zz" : String) ≠ "" ∧
      wb0.elements.any (fun e => e.id == "zz") = false ∧
      elementUpdateHandler user0 9 "w1" "zz" (some "np") (some wb0) =
        { emits := [errEmit "Failed to update element"], stored := some wb0 } :=
  ⟨by decide, by decide, by decide,
   element_update_unknown_id_error_only user0 9 "w1" "zz" "np" wb0
     (by decide) (by decide) (by decide)⟩

/-- C4 counterexample: a `whiteboard-element-remove` whose `elementId`
(`bogus`) matches no element of the stored whiteboard emits no `error` at
all — it broadcasts `whiteboard-element-removed` to the room excluding
the sender while the stored document stays exactly as it was, refuting
the claim that an unknown id yields an error to the sender and no
broadcast. -/
theorem element_remove_unknown_id_counterexample :
    elementRemoveHandler user0 "w1" "bogus" (some wb0) =
      { emits := [{ event := "whiteboard-element-removed",
                    aud := Audience.roomExceptSender "whiteboard_w1",
                    payload := Payload.elementRemoved "bogus" }],
        stored := some wb0 } ∧
    hasErrorEmit (elementRemoveHandler user0 "w1" "bogus" (some wb0)).emits = false := by
  constructor <;> decide

/-- C4 amended: a `whiteboard-element-remove` with valid fields on a
resolved whiteboard whose elements contain no match for `elementId` is
treated exactly like a successful removal — the
`whiteboard-element-removed` broadcast goes to the room excluding the
sender and no `error` is emitted — while the persisted document is
entirely unchanged: the filter removes nothing, the `elements` path is
not marked modified, and the pre-save hook leaves the version counter
alone. -/
theorem element_remove_unknown_id_silent
    (u : User) (whiteboardId elementId : String) (wb : Whiteboard)
    (hw : whiteboardId ≠ "") (he : elementId ≠ "")
    (hnot : wb.elements.any (fun e => e.id == elementId) = false) :
    elementRemoveHandler u whiteboardId elementId (some wb) =
      { emits := [{ event := "whiteboard-element-removed",
                    aud := Audience.roomExceptSender ("whiteboard_" ++ whiteboardId),
                    payload := Payload.elementRemoved elementId }],
        stored := some wb } := by
  unfold elementRemoveHandler
  rw [if_neg (by tauto)]
  have hfilter : wb.elements.filter (fun e => e.id != elementId) = wb.elements := by
    apply List.filter_eq_self.mpr
    intro a ha
    simp only [List.any_eq_false] at hnot
    have hne := hnot a ha
    simp only [beq_iff_eq] at hne
    simp only [bne_iff_ne, ne_eq]
    exact hne
  simp [Whiteboard.removeElement, Whiteboard.save, hfilter]

theorem element_remove_unknown_id_silent_witness :
    ("w1" : String) ≠ "" ∧ ("zzz" : String) ≠ "" ∧
      wb0.elements.any (fun e => e.id == "zzz") = false ∧
      elementRemoveHandler user0 "w1" "zzz" (some wb0) =
        { emits := [{ event := "whiteboard-element-removed",
                      aud := Audience.roomExceptSender "whiteboard_w1",
                      payload := Payload.elementRemoved "zzz" }],
          stored := some wb0 } :=
  ⟨by decide, by decide, by decide,
   element_remove_unknown_id_silent user0 "w1" "zzz" wb0
     (by decide) (by decide) (by decide)⟩

/-- C5 counterexample: a disconnecting connection holds a whiteboard, a
chat and a project room; the chat typing cleanup throws (`user0` is not a
participant of the chat), and because all three cleanups share one
try/catch, the `user-left-project` broadcast for the held project room is
never performed — the whiteboard cleanup emit is the only one.  This
refutes the claim that a failure in one cleanup does not prevent the
others. -/
theorem disconnect_cleanup_counterexample :
    chatNoPart.updateTypingStatus 1 false 5 = Except.error "User not found in chat" ∧
    (disconnectHandler user0 5 (some "w1") (some "c1") (some "p1")
        (some wbCollab) (some chatNoPart)).emits =
      [{ event := "user-left-whiteboard",
         aud := Audience.roomExceptSender "whiteboard_w1",
         payload := Payload.userInfo 1 }] :=
  ⟨rfl, by decide⟩

/-- C5 amended: the three disconnect cleanups run sequentially inside a
single try/catch, so when the chat typing cleanup throws (the user is not
a participant of the resolved chat) the error is swallowed and the
remaining project-room cleanup is skipped: the result is exactly that of
a disconnect holding neither a chat nor a project, with the chat document
left unchanged. -/
theorem disconnect_cleanup_not_isolated
    (u : User) (now : Nat) (cid pid : String) (wid : Option String)
    (swb : Option Whiteboard) (c : Chat)
    (hfail : c.participants.any (fun p => p.user == u.id) = false) :
    disconnectHandler u now wid (some cid) (some pid) swb (some c) =
      { emits := (disconnectHandler u now wid none none swb none).emits,
        storedWb := (disconnectHandler u now wid none none swb none).storedWb,
        storedChat := some c } := by
  unfold disconnectHandler
  simp [Chat.updateTypingStatus, hfail, projLeftEmit]

theorem disconnect_cleanup_not_isolated_witness :
    chatNoPart.participants.any (fun p => p.user == user0.id) = false ∧
      disconnectHandler user0 5 (some "w1") (some "c1") (some "p1")
          (some wbCollab) (some chatNoPart) =
        { emits := (disconnectHandler user0 5 (some "w1") none none
            (some wbCollab) none).emits,
          storedWb := (disconnectHandler user0 5 (some "w1") none none
            (some wbCollab) none).storedWb,
          storedChat := some chatNoPart } :=
  ⟨by decide,
   disconnect_cleanup_not_isolated user0 5 "c1" "p1" (some "w1")
     (some wbCollab) chatNoPart (by decide)⟩

/-- C6 counterexample: `updateMessage` on the soft-deleted message `m1`
succeeds — it overwrites the deleted message's content with `bye` and
marks it edited — refuting the claim that edits on a deleted message are
rejected and its content never modified. -/
theorem update_deleted_message_counterexample :
    msgDel.isDeleted = true ∧
    chatDel.updateMessage "m1" "bye" 7 =
      Except.ok { participants := [part0],
                  messages := [{ msgDel with content := "bye", isEdited := true, editedAt := some 7 }],
                  lastActivity := 7 } :=
  ⟨by decide, rfl⟩

/-- Helper: `updateMsgs` rewrites exactly the first message whose id
matches. -/
theorem updateMsgs_first_match (pre post : List Message) (m : Message)
    (content : String) (now : Nat) (hfirst : ∀ x ∈ pre, x.id ≠ m.id) :
    updateMsgs (pre ++ m :: post) m.id content now =
      pre ++ { m with content := content, isEdited := true, editedAt := some now } :: post := by
  induction pre with
  | nil => simp [updateMsgs]
  | cons a rest ih =>
    have ha : a.id ≠ m.id := hfirst a (List.mem_cons_self a rest)
    simp only [List.cons_append, updateMsgs, if_neg ha, List.append_eq]
    exact congrArg (fun l => a :: l)
      (ih (fun x hx => hfirst x (List.mem_cons_of_mem a hx)))

/-- C6 amended: `updateMessage` rejects only ids that match no message at
all; the `isDeleted` flag is never consulted, so an edit addressed to a
(first-matching) message succeeds whether or not that message is deleted,
overwriting its content and marking it edited while its id and deletion
flags are preserved. -/
theorem update_message_ignores_deleted_flag
    (c : Chat) (m : Message) (pre post : List Message) (content : String) (now : Nat)
    (hmsgs : c.messages = pre ++ m :: post)
    (hfirst : ∀ x ∈ pre, x.id ≠ m.id) :
    c.updateMessage m.id content now =
      Except.ok (Chat.save
        { c with messages :=
            pre ++ { m with content := content, isEdited := true, editedAt := some now } :: post }
        true now) := by
  unfold Chat.updateMessage
  rw [hmsgs]
  rw [if_pos (by simp)]
  rw [updateMsgs_first_match pre post m content now hfirst]

theorem update_message_ignores_deleted_flag_witness :
    chatDel.messages = [] ++ msgDel :: [] ∧
      (∀ x ∈ ([] : List Message), x.id ≠ msgDel.id) ∧
      chatDel.updateMessage msgDel.id "rewritten" 8 =
        Except.ok (Chat.save
          { chatDel with messages :=
              [] ++ { msgDel with content := "rewritten", isEdited := true, editedAt := some 8 } :: [] }
          true 8) :=
  ⟨by decide, by simp,
   update_message_ignores_deleted_flag chatDel msgDel [] [] "rewritten" 8
     (by decide) (by simp)⟩

/-- C7 counterexample: two `whiteboard-element-add` events that both
supply the client-generated id `a` leave the persisted whiteboard with
two elements of the same id, refuting the uniqueness claim. -/
theorem element_id_uniqueness_counterexample :
    (elementAddHandler user0 1 "g2" "w1" (some elemIn)
        (elementAddHandler user0 0 "g1" "w1" (some elemIn) (some wbEmpty)).stored).stored.map
        wbIds = some ["a", "a"] ∧
    ¬ (["a", "a"] : List String).Nodup := by
  constructor <;> decide

/-- C7 amended: `addElement` never checks the existing ids, so uniqueness
of element ids is preserved by an add exactly when the effective id —
the client-supplied one, or the generated one when the client supplies
none — is not already present; an add that supplies an id already in the
whiteboard creates a duplicate. -/
theorem element_ids_unique_when_fresh
    (wb : Whiteboard) (e : ElementInput) (now : Nat) (genId : String)
    (huniq : (wbIds wb).Nodup)
    (hfresh : (if e.id = "" then genId else e.id) ∉ wbIds wb) :
    (wbIds (wb.addElement e now genId)).Nodup := by
  have hids : wbIds (wb.addElement e now genId) =
      wbIds wb ++ [if e.id = "" then genId else e.id] := by
    simp [Whiteboard.addElement, Whiteboard.save, wbIds]
  rw [hids, List.nodup_append]
  refine ⟨huniq, List.nodup_singleton _, ?_⟩
  intro a ha hb
  rw [List.mem_singleton] at hb
  subst hb
  exact hfresh ha

theorem element_ids_unique_when_fresh_witness :
    (wbIds wb0).Nodup ∧
      ((if ("b" : String) = "" then "g9" else "b") ∉ wbIds wb0) ∧
      (wbIds (wb0.addElement { id := "b", etype := "circle", payload := "q", createdBy := 1 } 2 "g9")).Nodup :=
  ⟨by decide, by decide,
   element_ids_unique_when_fresh wb0
     { id := "b", etype := "circle", payload := "q", createdBy := 1 } 2 "g9"
     (by decide) (by decide)⟩

/-- C8 counterexample: a `whiteboard-cursor-update` with an empty
`whiteboardId`, and a `chat-typing-start` with an empty `chatId`, emit
nothing at all — in particular no `error` event to the sender — refuting
the claim that every payload missing a required field is answered with an
`error` event. -/
theorem missing_field_silent_counterexample :
    cursorUpdateHandler user0 0 "" (some { x := 1, y := 2 }) (some wb0) =
      { emits := [], stored := some wb0 } ∧
    typingStartHandler user0 0 "" (some chat0) =
      { emits := [], stored := some chat0 } := by
  constructor <;> decide

/-- C8 amended: a payload missing a required field is answered with a
single `error` event to the sender only — no room broadcast, no state
change — by `join-project`, `join-whiteboard`, `join-chat`,
`whiteboard-element-add` / `-update` / `-remove` and `chat-message`,
whereas `whiteboard-cursor-update`, `chat-typing-start` / `-stop` and
`chat-message-read` silently ignore the event and emit nothing; in every
case the connection remains open and the stored documents are
untouched. -/
theorem missing_field_error_or_silent :
    (∀ (v : User), joinProjectHandler v "" =
      { emits := [errEmit "Project ID is required"], joinedRooms := [], projectId := none })
    ∧ (∀ (v : User) (n : Nat) (swb : Option Whiteboard), joinWhiteboardHandler v n "" swb =
      { emits := [errEmit "Whiteboard ID is required"], joinedRooms := [],
        activeWhiteboard := none, stored := swb })
    ∧ (∀ (v : User) (sc : Option Chat), joinChatHandler v "" sc =
      { emits := [errEmit "Chat ID is required"], joinedRooms := [],
        activeChat := none, stored := sc })
    ∧ (∀ (v : User) (n : Nat) (gid wid : String) (swb : Option Whiteboard),
      elementAddHandler v n gid wid none swb =
        { emits := [errEmit "Invalid data for adding element"], stored := swb })
    ∧ (∀ (v : User) (n : Nat) (gid : String) (el : Option ElementInput)
        (swb : Option Whiteboard),
      elementAddHandler v n gid "" el swb =
        { emits := [errEmit "Invalid data for adding element"], stored := swb })
    ∧ (∀ (v : User) (n : Nat) (wid eid : String) (swb : Option Whiteboard),
      elementUpdateHandler v n wid eid none swb =
        { emits := [errEmit "Invalid data for updating element"], stored := swb })
    ∧ (∀ (v : User) (n : Nat) (eid : String) (up : Option String)
        (swb : Option Whiteboard),
      elementUpdateHandler v n "" eid up swb =
        { emits := [errEmit "Invalid data for updating element"], stored := swb })
    ∧ (∀ (v : User) (eid : String) (swb : Option Whiteboard),
      elementRemoveHandler v "" eid swb =
        { emits := [errEmit "Invalid data for removing element"], stored := swb })
    ∧ (∀ (v : User) (n : Nat) (gid content mtype : String) (atts : List String)
        (sc : Option Chat),
      chatMessageHandler v n gid "" content mtype atts sc =
        { emits := [errEmit "Invalid message data"], stored := sc })
    ∧ (∀ (v : User) (n : Nat) (cur : Option Cursor) (swb : Option Whiteboard),
      cursorUpdateHandler v n "" cur swb = { emits := [], stored := swb })
    ∧ (∀ (v : User) (n : Nat) (wid : String) (swb : Option Whiteboard),
      cursorUpdateHandler v n wid none swb = { emits := [], stored := swb })
    ∧ (∀ (v : User) (n : Nat) (sc : Option Chat),
      typingStartHandler v n "" sc = { emits := [], stored := sc })
    ∧ (∀ (v : User) (n : Nat) (sc : Option Chat),
      typingStopHandler v n "" sc = { emits := [], stored := sc })
    ∧ (∀ (v : User) (n : Nat) (mid : Option String) (sc : Option Chat),
      messageReadHandler v n "" mid sc = { emits := [], stored := sc }) := by
  refine ⟨fun v => rfl, fun v n swb => rfl, fun v sc => rfl, fun v n gid wid swb => rfl,
    ?_, fun v n wid eid swb => rfl, ?_, fun v eid swb => rfl, ?_, ?_,
    fun v n wid swb => rfl, fun v n sc => rfl, fun v n sc => rfl, fun v n mid sc => rfl⟩
  · intro v n gid el swb
    cases el <;> rfl
  · intro v n eid up swb
    cases up <;> rfl
  · intro v n gid content mtype atts sc
    simp [chatMessageHandler]
  · intro v n cur swb
    cases cur <;> rfl

/-- C9 counterexample: after a `chat-message` from `user0` the stored
chat's single (new) message has sender `1` and an empty `readBy` list —
the sender is not marked as having read the message it just sent —
refuting the claim that the handler marks the new message read by the
sender. -/
theorem chat_message_not_marked_read_counterexample :
    ((chatMessageHandler user0 3 "m9" "c1" "hello" "text" [] (some chat0)).stored.map
        (fun c => c.messages.map (fun m => (m.sender, m.readBy)))) =
      some [(1, [])] := by
  decide

/-- C9 amended: with a resolved chat and valid fields, `chat-message`
appends exactly one new message carrying the sender, content, the
server-assigned id and timestamp — but leaves its `readBy` list empty:
the sender is not marked as having read it. -/
theorem chat_message_appends_without_read_receipt
    (u : User) (now : Nat) (genId chatId content mtype : String)
    (atts : List String) (c : Chat) (hc : chatId ≠ "") (hcont : content ≠ "") :
    ∃ msg : Message,
      (chatMessageHandler u now genId chatId content mtype atts (some c)).stored =
        some (Chat.save { c with messages := c.messages ++ [msg] } true now) ∧
      msg.sender = u.id ∧ msg.content = content ∧ msg.id = genId ∧
      msg.createdAt = now ∧ msg.readBy = [] := by
  refine ⟨{ id := genId, sender := u.id, content := content, mtype := mtype,
            attachments := atts, readBy := [], isEdited := false, editedAt := none,
            isDeleted := false, deletedAt := none, createdAt := now },
          ?_, rfl, rfl, rfl, rfl, rfl⟩
  unfold chatMessageHandler
  rw [if_neg (by tauto)]
  simp [Chat.addMessage]

theorem chat_message_appends_without_read_receipt_witness :
    ("c2" : String) ≠ "" ∧ ("yo" : String) ≠ "" ∧
      (∃ msg : Message,
        (chatMessageHandler user0 4 "mA" "c2" "yo" "text" [] (some chat0)).stored =
          some (Chat.save { chat0 with messages := chat0.messages ++ [msg] } true 4) ∧
        msg.sender = user0.id ∧ msg.content = "yo" ∧ msg.id = "mA" ∧
        msg.createdAt = 4 ∧ msg.readBy = []) :=
  ⟨by decide, by decide,
   chat_message_appends_without_read_receipt user0 4 "mA" "c2" "yo" "text" [] chat0
     (by decide) (by decide)⟩

/-- C10: a `join-whiteboard` whose non-empty `whiteboardId` resolves to no
stored whiteboard still joins the `whiteboard_<id>` room and records the
id as the connection's active whiteboard, while emitting neither a
`whiteboard-state` nor an `error` to the sender and broadcasting no
`user-joined-whiteboard` to the room. -/
theorem join_whiteboard_unknown_id
    (u : User) (now : Nat) (wid : String) (hw : wid ≠ "") :
    joinWhiteboardHandler u now wid none =
      { emits := [], joinedRooms := ["whiteboard_" ++ wid],
        activeWhiteboard := some wid, stored := none } := by
  unfold joinWhiteboardHandler
  rw [if_neg hw]

theorem join_whiteboard_unknown_id_witness :
    ("w7" : String) ≠ "" ∧
      joinWhiteboardHandler user0 2 "w7" none =
        { emits := [], joinedRooms := ["whiteboard_w7"],
          activeWhiteboard := some "w7", stored := none } :=
  ⟨by decide, join_whiteboard_unknown_id user0 2 "w7" (by decide)⟩

end InfoWellNess
